import Mathlib

/-
Verification of the Cockpit fleet control plane.

The definitions below are a shallow embedding of the Python sources:
  * the Instance Agent (hyrise_interface/HyriseInterface.py): its state,
    its periodic counter flush, and its command-dispatch loop;
  * the gateway (hyrisecockpit/backend/app.py): the metrics-aggregation
    window, the result reshaping, the two workload workflows, and the
    control-channel validation flow.
Machine state is explicit; fallible operations return Except; everything
is computable so that concrete runs can be evaluated by the kernel.
-/

/-- Outcome of executing one SQL statement against the bound database.
The statement text itself is opaque; only its fate matters. -/
inductive QueryOutcome where
  | success
  | dbError
  deriving DecidableEq

/-- State of one HyriseInterface agent (HyriseInterface.py).
`redis_throughput_counter` is the live redis key "throughput_counter";
`redis_throughput` is the redis key "throughput" seeded by init_redis;
`throughput_counter` is the Python attribute self.throughput_counter, a
decimal string holding the last flushed value; `storage_data` is the
redis key "storage_data" (written by the out-of-scope collector). -/
structure AgentState where
  redis_throughput_counter : Nat
  redis_throughput : Nat
  throughput_counter : String
  storage_data : String
  deriving DecidableEq

/-- State after HyriseInterface.__init__ plus init_redis: the attribute
self.throughput_counter is the string "0", and init_redis sets the redis
keys "throughput" and "throughput_counter" to 0 (lines 32, 38-42). -/
def initialState : AgentState :=
  { redis_throughput_counter := 0
    redis_throughput := 0
    throughput_counter := "0"
    storage_data := "" }

/-- HyriseInterface.update_throughput (lines 44-48), taken as one
sequential composite: read the redis counter into the published attribute,
then set the redis counter to 0. The interleaved (non-atomic) version of
this same code is modelled separately by `flushStep`. -/
def update_throughput (s : AgentState) : AgentState :=
  { s with
    throughput_counter := toString s.redis_throughput_counter
    redis_throughput_counter := 0 }

/-- Modelled from the spec: LoadGenerator.execute_raw_query is not under
src/ (HyriseInterface.execute_raw_query, lines 103-105, only delegates to
it). Per spec section 4.2, a successfully executed statement increments
the ThroughputCounter by one and a database error leaves it unchanged. -/
def execute_raw_query (s : AgentState) (o : QueryOutcome) : AgentState :=
  match o with
  | QueryOutcome.success =>
    { s with redis_throughput_counter := s.redis_throughput_counter + 1 }
  | QueryOutcome.dbError => s

/-- Modelled from the spec: LoadGenerator.execute_raw_workload is not
under src/. Per spec section 4.2 it runs the statements sequentially,
incrementing the counter once per successful statement. -/
def execute_raw_workload (s : AgentState) (os : List QueryOutcome) : AgentState :=
  os.foldl execute_raw_query s

/-- One incoming message on the agent's REP socket. `contentType` is the
JSON field "Content-Type"; the SQL content is abstracted to the outcome
(for a query) or outcomes (for a workload) its execution would have. -/
structure Msg where
  contentType : String
  outcome : QueryOutcome
  outcomes : List QueryOutcome
  deriving DecidableEq

/-- Message carrying one query whose execution has outcome `o`. -/
def queryMsg (o : QueryOutcome) : Msg :=
  { contentType := "query", outcome := o, outcomes := [] }

/-- Message with the given Content-Type and no query content. -/
def simpleMsg (c : String) : Msg :=
  { contentType := c, outcome := QueryOutcome.success, outcomes := [] }

/-- json.dumps of the singleton dict mapping "throughput" to the string
value v, as built on line 70 of HyriseInterface.py. -/
def throughputJson (v : String) : String :=
  "\x7b\"throughput\": \"" ++ v ++ "\"\x7d"

/-- One iteration of the dispatch loop in HyriseInterface.start
(lines 57-77): branch on Content-Type, produce exactly one response
string and the successor state. -/
def dispatch (s : AgentState) (m : Msg) : String × AgentState :=
  if m.contentType = "query" then
    ("OK", execute_raw_query s m.outcome)
  else if m.contentType = "workload" then
    ("OK", execute_raw_workload s m.outcomes)
  else if m.contentType = "storage_data" then
    (s.storage_data, s)
  else if m.contentType = "throughput" then
    (throughputJson s.throughput_counter, s)
  else if m.contentType = "runtime_information" then
    ("[NOT IMPLEMENTED YETWorkload]", s)
  else
    ("[Error]", s)

/-- The dispatch loop run over a list of incoming messages, collecting
the response sent for each (the loop sends exactly one response per
received message, line 77). -/
def runLoop : AgentState → List Msg → List String × AgentState
  | s, [] => ([], s)
  | s, m :: ms =>
    let r := dispatch s m
    let rest := runLoop r.2 ms
    (r.1 :: rest.1, rest.2)

/-- k successful query executions in a row (k atomic counter increments
landing after a flush). -/
def applyIncrs : Nat → AgentState → AgentState
  | 0, s => s
  | k + 1, s => applyIncrs k (execute_raw_query s QueryOutcome.success)

/-- The Content-Type values recognized by the dispatch loop. -/
def recognized_commands : List String :=
  ["query", "workload", "storage_data", "throughput", "runtime_information"]

/-
Fine-grained interleaving model of the throughput counter.  The flush in
update_throughput is two separate redis operations: the read on line 46
(which also publishes the value read) and the write of 0 on line 48.
Increments (modelled from spec section 5: a single atomic increment
primitive executed by the worker side) may land between them.
-/

/-- One atomic event on the shared redis counter: a worker increment, the
flush's read-and-publish (line 46), or the flush's write of zero
(line 48). -/
inductive FlushEvent where
  | incr
  | flushRead
  | flushWrite
  deriving DecidableEq

/-- Counter state plus the ghost history of all published epoch values. -/
structure FlushState where
  counter : Nat
  reported : List Nat
  deriving DecidableEq

/-- Effect of one atomic event: incr adds one to the shared counter;
flushRead publishes the current counter value as the epoch's throughput;
flushWrite unconditionally sets the counter to zero. -/
def flushStep (s : FlushState) (e : FlushEvent) : FlushState :=
  match e with
  | FlushEvent.incr => { s with counter := s.counter + 1 }
  | FlushEvent.flushRead => { s with reported := s.reported ++ [s.counter] }
  | FlushEvent.flushWrite => { s with counter := 0 }

/-- Run an interleaving from the freshly initialized counter. -/
def flushRun (tr : List FlushEvent) : FlushState :=
  tr.foldl flushStep { counter := 0, reported := [] }

/-- Number of increments in an interleaving. -/
def incrCount (tr : List FlushEvent) : Nat :=
  tr.countP (fun e => match e with | FlushEvent.incr => true | _ => false)

/-- Each flush tick is a read followed (possibly after interleaved
increments) by its write; ticks do not overlap (the scheduler runs one
job at a time) and each started tick completes. -/
def flushShape : Bool → List FlushEvent → Bool
  | pending, [] => !pending
  | pending, FlushEvent.incr :: rest => flushShape pending rest
  | pending, FlushEvent.flushRead :: rest => !pending && flushShape true rest
  | pending, FlushEvent.flushWrite :: rest => pending && flushShape false rest

/-- A trace is a legal interleaving of increments with whole flush
ticks. -/
def flushWellFormed (tr : List FlushEvent) : Bool :=
  flushShape false tr

/-- The interleaving in which one increment lands between the flush's
read (line 46) and its write of zero (line 48). -/
def lostUpdateTrace : List FlushEvent :=
  [FlushEvent.incr, FlushEvent.flushRead, FlushEvent.incr, FlushEvent.flushWrite]

/-
Gateway side (hyrisecockpit/backend/app.py).
-/

/-- Epoch length in nanoseconds: the 1_000_000_000 appearing in every
metrics endpoint of app.py. -/
def epoch_ns : Int := 1000000000

/-- One aggregation window, given by its influx bind parameters. -/
structure AggWindow where
  startts : Int
  endts : Int
  deriving DecidableEq

/-- Window computed at the top of Throughput.get (lines 566-568):
startts = now - 2_000_000_000, endts = now - 1_000_000_000, where now is
time_ns(). -/
def aggregationWindow (currentts : Int) : AggWindow :=
  { startts := currentts - 2000000000, endts := currentts - 1000000000 }

/-- Membership of a sample timestamp in a window, exactly the influx
predicate of the query on line 577: time > startts AND time <= endts. -/
def inWindow (w : AggWindow) (t : Int) : Prop :=
  w.startts < t ∧ t ≤ w.endts

/-- Reshaping loop of Throughput.get (lines 575-587): every active
database becomes a key; if the influx result holds at least one row its
first count is used, otherwise the value 0 is stored. `results` gives,
per database, the list of count rows the store returned. -/
def throughputReshape (dbs : List String) (results : String → List Nat) :
    List (String × Nat) :=
  dbs.map (fun db =>
    match results db with
    | [] => (db, 0)
    | c :: _ => (db, c))

/-- One influx group-by tag set: the benchmark and query_no tags. -/
structure TagSet where
  benchmark : String
  query_no : String
  deriving DecidableEq

/-- One entry of a database's detailed_throughput list (lines 614-621). -/
structure DetailedEntry where
  benchmark : String
  query_number : String
  throughput : Nat
  deriving DecidableEq

/-- Reshaping comprehension of DetailedThroughput.get (lines 614-621):
one output entry per tag group present in the influx result keys; tag
pairs with no rows never appear. `rows` pairs each returned tag group
with its count. -/
def detailedThroughputReshape (rows : List (TagSet × Nat)) : List DetailedEntry :=
  rows.map (fun r =>
    { benchmark := r.1.benchmark, query_number := r.1.query_no, throughput := r.2 })

/-- A remote control-channel response as consumed by the workflow code:
its header.status and the optional "error" field of its body. -/
structure RemoteResponse where
  status : Nat
  error : Option String
  deriving DecidableEq

/-- Result envelope returned by a workflow call. `errorEnvelope c m`
stands for get_error_response(c, m); `successEnvelope c` for
get_response(c); `passthrough r` for returning the raw remote response
(the success branch of Workload.delete). The envelope constructors are
modelled from the spec's uniform success/error envelope, since
hyrisecockpit/response.py is not under src/. -/
inductive WorkloadResult where
  | errorEnvelope (status : Nat) (message : String)
  | successEnvelope (status : Nat)
  | passthrough (r : RemoteResponse)
  deriving DecidableEq

/-- A workflow run: the header.message names sent on the Fleet Manager
(db_manager) channel, those sent on the Workload Generator channel, and
the returned envelope. -/
structure WorkflowTrace where
  db_manager_msgs : List String
  generator_msgs : List String
  result : WorkloadResult
  deriving DecidableEq

/-- Workload.post (lines 926-949): send "start worker" to the Fleet
Manager; on non-200 status return a 400 error envelope with the body's
error field or the default text, without touching the generator channel;
otherwise send "start workload" to the generator, with the same failure
handling; on success return get_response(200). `r1` and `r2` are the
responses the two channels would deliver. -/
def workload_post (r1 r2 : RemoteResponse) : WorkflowTrace :=
  if r1.status ≠ 200 then
    { db_manager_msgs := ["start worker"]
      generator_msgs := []
      result := WorkloadResult.errorEnvelope 400
        (r1.error.getD ("Error during starting of worker")) }
  else if r2.status ≠ 200 then
    { db_manager_msgs := ["start worker"]
      generator_msgs := ["start workload"]
      result := WorkloadResult.errorEnvelope 400
        (r2.error.getD ("Error during starting of the workload")) }
  else
    { db_manager_msgs := ["start worker"]
      generator_msgs := ["start workload"]
      result := WorkloadResult.successEnvelope 200 }

/-- Workload.delete (lines 951-967): send "stop workload" to the
generator; on non-200 status return a 400 error envelope without touching
the Fleet Manager channel; otherwise send "close worker" to the Fleet
Manager, with the same failure handling; on success return the close
worker response itself. -/
def workload_delete (r1 r2 : RemoteResponse) : WorkflowTrace :=
  if r1.status ≠ 200 then
    { db_manager_msgs := []
      generator_msgs := ["stop workload"]
      result := WorkloadResult.errorEnvelope 400
        (r1.error.getD ("Error during stopping of generator")) }
  else if r2.status ≠ 200 then
    { db_manager_msgs := ["close worker"]
      generator_msgs := ["stop workload"]
      result := WorkloadResult.errorEnvelope 400
        (r2.error.getD ("Error during closing of worker")) }
  else
    { db_manager_msgs := ["close worker"]
      generator_msgs := ["stop workload"]
      result := WorkloadResult.passthrough r2 }

/-- A failing remote response carrying an embedded error message. -/
def errResp : RemoteResponse := { status := 500, error := some "boom" }

/-- A successful remote response. -/
def okResp : RemoteResponse := { status := 200, error := none }

/-- A failing remote response whose body has no error field. -/
def bareErrResp : RemoteResponse := { status := 418, error := none }

/-
Control-channel validation flow (_send_message and _active_databases,
lines 542-556, and the ValidationError handler of Throughput.get,
lines 570-574).  The jsonschema documents live in hyrisecockpit/message.py,
which is not under src/, so the two schema checks are abstract boolean
predicates supplied per call; the flow around them is from the source.
-/

/-- One database entry of the "get databases" body. -/
structure DbEntry where
  id : String
  deriving DecidableEq

/-- Body of a "get databases" control response. -/
structure ControlBody where
  databases : List DbEntry
  deriving DecidableEq

/-- A raw control-channel response as received off the wire: its
header.message, header.status, and body. -/
structure ControlResponse where
  message : String
  status : Nat
  body : ControlBody
  deriving DecidableEq

/-- Failure mode of the validation flow. -/
inductive ProtoError where
  | validationFailed
  deriving DecidableEq

/-- _send_message (lines 542-547): receive the raw response `resp` and
validate it against the response schema (`respValid`) before returning
it; a schema mismatch raises ValidationError, modelled as Except.error. -/
def send_message (respValid : ControlResponse → Bool) (resp : ControlResponse) :
    Except ProtoError ControlResponse :=
  if respValid resp = true then Except.ok resp
  else Except.error ProtoError.validationFailed

/-- _active_databases (lines 550-556): issue "get databases" through
send_message, additionally validate the body against the get-databases
schema (`bodyValid`), and extract the id of every listed database. -/
def active_databases (respValid bodyValid : ControlResponse → Bool)
    (resp : ControlResponse) : Except ProtoError (List String) :=
  match send_message respValid resp with
  | Except.error e => Except.error e
  | Except.ok r2 =>
    if bodyValid r2 = true then Except.ok (r2.body.databases.map (fun d => d.id))
    else Except.error ProtoError.validationFailed

/-- Outcome of the Throughput endpoint: either the generic server error
code or the reshaped per-database map. -/
inductive EndpointResult where
  | serverError (code : Nat)
  | ok (throughput : List (String × Nat))
  deriving DecidableEq

/-- Throughput.get (lines 564-590): look up the active databases,
returning 500 and issuing no time-series queries if that lookup raises
ValidationError; otherwise issue one time-series query per database
(second component: the databases queried) and reshape the results. -/
def throughput_endpoint (respValid bodyValid : ControlResponse → Bool)
    (resp : ControlResponse) (results : String → List Nat) :
    EndpointResult × List String :=
  match active_databases respValid bodyValid resp with
  | Except.error _ => (EndpointResult.serverError 500, [])
  | Except.ok dbs => (EndpointResult.ok (throughputReshape dbs results), dbs)

/-- A concrete well-formed "get databases" response. -/
def sampleControlResponse : ControlResponse :=
  { message := "get databases", status := 200, body := { databases := [{ id := "hyrise-1" }] } }

/-
Helper lemmas, shared by the claim theorems below.
-/

/-- The dispatch loop sends exactly one response per received message. -/
theorem runLoop_length (msgs : List Msg) :
    ∀ s : AgentState, (runLoop s msgs).1.length = msgs.length := by
  induction msgs with
  | nil => intro s; rfl
  | cons m ms ih =>
    intro s
    simp [runLoop, ih]

/-- Successful query executions leave the published attribute untouched. -/
theorem applyIncrs_throughput_counter (k : Nat) :
    ∀ s : AgentState, (applyIncrs k s).throughput_counter = s.throughput_counter := by
  induction k with
  | zero => intro s; rfl
  | succ n ih =>
    intro s
    rw [applyIncrs, ih]
    rfl

/-- Responding to a throughput message reads the published attribute. -/
theorem dispatch_throughput_first (s : AgentState) :
    (dispatch s (simpleMsg ("throughput"))).1 = throughputJson s.throughput_counter :=
  rfl

/-
Claim theorems.
-/

/-- C1: the claim states that update_throughput atomically exchanges the
counter for zero so that no increment is lost under any interleaving.
The code is a non-atomic get-then-set: on the legal interleaving
`lostUpdateTrace`, where one increment lands between the read (line 46)
and the write of zero (line 48), two increments are executed but the sum
of all reported epoch totals plus the live remainder is only one — one
increment is silently dropped, contradicting the conservation the claim
(and spec section 4.2) requires. -/
theorem counter_flush_lost_update :
    flushWellFormed lostUpdateTrace = true ∧
    incrCount lostUpdateTrace = 2 ∧
    (flushRun lostUpdateTrace).reported.sum + (flushRun lostUpdateTrace).counter = 1 := by
  decide

/-- C2 counterexample: the claim states that two aggregation calls made
at different now values never return overlapping windows. At the distinct
times 2000000000 and 2000000001 ns, the timestamp 1000000000 lies in both
windows, so the windows overlap. -/
theorem window_overlap_at_close_times :
    (2000000000 : Int) ≠ 2000000001 ∧
    inWindow (aggregationWindow 2000000000) 1000000000 ∧
    inWindow (aggregationWindow 2000000001) 1000000000 := by
  refine ⟨by decide, ?_, ?_⟩ <;>
    simp [inWindow, aggregationWindow]

/-- C2 amended: the window used at time now is exactly the half-open
interval (now - 2 epochs, now - 1 epoch] with strict lower and inclusive
upper bound, and the windows of two calls whose now values differ by at
least one epoch (1 second) never overlap. -/
theorem aggregation_window_spacing (now t n1 n2 : Int)
    (h : n1 + epoch_ns ≤ n2 ∨ n2 + epoch_ns ≤ n1) :
    (inWindow (aggregationWindow now) t ↔
      (now - 2 * epoch_ns < t ∧ t ≤ now - epoch_ns)) ∧
    ¬ (inWindow (aggregationWindow n1) t ∧ inWindow (aggregationWindow n2) t) := by
  constructor
  · simp only [inWindow, aggregationWindow, epoch_ns]
    norm_num
  · simp only [inWindow, aggregationWindow, epoch_ns] at h ⊢
    omega

/-- C2 witness: the spacing theorem applied at now = 0, t = 0, n1 = 0,
n2 = 1000000000, whose hypothesis holds concretely. -/
theorem aggregation_window_spacing_witness :
    ((0 : Int) + epoch_ns ≤ 1000000000 ∨ (1000000000 : Int) + epoch_ns ≤ 0) ∧
    ((inWindow (aggregationWindow 0) 0 ↔
      ((0 : Int) - 2 * epoch_ns < 0 ∧ (0 : Int) ≤ 0 - epoch_ns)) ∧
    ¬ (inWindow (aggregationWindow 0) 0 ∧ inWindow (aggregationWindow 1000000000) 0)) :=
  ⟨Or.inl (by norm_num [epoch_ns]),
    aggregation_window_spacing 0 0 0 1000000000 (Or.inl (by norm_num [epoch_ns]))⟩

/-- C4 counterexample: the claim states that on a database error the
response is an error response, not OK. Dispatching a query whose
execution fails with a database error from the initial state yields the
response OK with the state unchanged, so the response on a database
error is not distinct from OK. -/
theorem query_error_still_ok :
    (dispatch initialState (queryMsg QueryOutcome.dbError)).1 = "OK" ∧
    (dispatch initialState (queryMsg QueryOutcome.dbError)).2 = initialState ∧
    ¬ (dispatch initialState (queryMsg QueryOutcome.dbError)).1 ≠ "OK" := by
  decide

/-- C4 amended: for every query command, on successful execution the
ThroughputCounter is incremented by exactly 1 and the response is OK; on
a database error the counter is unchanged but the dispatch loop still
replies OK — the execution outcome is ignored and no error response is
produced. -/
theorem query_dispatch_behavior (s : AgentState) :
    (dispatch s (queryMsg QueryOutcome.success)).1 = "OK" ∧
    (dispatch s (queryMsg QueryOutcome.success)).2.redis_throughput_counter
      = s.redis_throughput_counter + 1 ∧
    (dispatch s (queryMsg QueryOutcome.dbError)).1 = "OK" ∧
    (dispatch s (queryMsg QueryOutcome.dbError)).2 = s :=
  ⟨rfl, rfl, rfl, rfl⟩

/-- C6: a throughput command returns the value captured by the most
recent flush tick — after a flush of state s, and any number k of
further live increments, the response still reports the counter value s
held when the flush ran — and immediately after the flush the live
counter is zero. -/
theorem throughput_reports_flushed_value (s : AgentState) (k : Nat) :
    (dispatch (applyIncrs k (update_throughput s)) (simpleMsg ("throughput"))).1
      = throughputJson (toString s.redis_throughput_counter) ∧
    (update_throughput s).redis_throughput_counter = 0 := by
  constructor
  · rw [dispatch_throughput_first, applyIncrs_throughput_counter]
    rfl
  · rfl

/-- C10: before any flush tick has fired, a throughput command already
returns a well-defined zero: the constructor publishes the string "0",
init_redis seeds the shared counter to 0, and dispatching a throughput
message in the initial state answers with that zero value. -/
theorem initial_throughput_zero :
    initialState.throughput_counter = "0" ∧
    initialState.redis_throughput_counter = 0 ∧
    (dispatch initialState (simpleMsg ("throughput"))).1 = throughputJson "0" :=
  ⟨rfl, rfl, rfl⟩

/-- C3: in both workflows, whenever Step 1's response carries a
non-success status, Step 2's command is never sent on its channel
(StartWorkload sends nothing to the generator, StopWorkload sends
nothing to the Fleet Manager) and the call returns a 400 envelope with
Step 1's embedded error message, substituting the generic default when
the response body has no error field. -/
theorem step_one_failure_aborts (r1 r2 : RemoteResponse) (h : r1.status ≠ 200) :
    (workload_post r1 r2).generator_msgs = [] ∧
    (workload_post r1 r2).result = WorkloadResult.errorEnvelope 400
      (r1.error.getD ("Error during starting of worker")) ∧
    (workload_delete r1 r2).db_manager_msgs = [] ∧
    (workload_delete r1 r2).result = WorkloadResult.errorEnvelope 400
      (r1.error.getD ("Error during stopping of generator")) := by
  simp [workload_post, workload_delete, h]

/-- C3 witness: the abort theorem applied to a failing Step 1 response
with an embedded error and a successful Step 2 response. -/
theorem step_one_failure_aborts_witness :
    errResp.status ≠ 200 ∧
    ((workload_post errResp okResp).generator_msgs = [] ∧
     (workload_post errResp okResp).result = WorkloadResult.errorEnvelope 400
       (errResp.error.getD ("Error during starting of worker")) ∧
     (workload_delete errResp okResp).db_manager_msgs = [] ∧
     (workload_delete errResp okResp).result = WorkloadResult.errorEnvelope 400
       (errResp.error.getD ("Error during stopping of generator"))) :=
  ⟨by decide, step_one_failure_aborts errResp okResp (by decide)⟩

/-- C7: when StartWorkload's Step 2 fails after Step 1 succeeded, the
call returns Step 2's error and the Fleet Manager channel carries only
the original "start worker" message — in particular no "close worker"
rollback — so the worker pool started in Step 1 is left running. -/
theorem partial_failure_no_rollback (r1 r2 : RemoteResponse)
    (h1 : r1.status = 200) (h2 : r2.status ≠ 200) :
    (workload_post r1 r2).db_manager_msgs = ["start worker"] ∧
    "close worker" ∉ (workload_post r1 r2).db_manager_msgs ∧
    (workload_post r1 r2).generator_msgs = ["start workload"] ∧
    (workload_post r1 r2).result = WorkloadResult.errorEnvelope 400
      (r2.error.getD ("Error during starting of the workload")) := by
  refine ⟨?_, ?_, ?_, ?_⟩ <;> simp [workload_post, h1, h2]

/-- C7 witness: the no-rollback theorem applied to a successful Step 1
response and a failing Step 2 response without an error field. -/
theorem partial_failure_no_rollback_witness :
    okResp.status = 200 ∧ bareErrResp.status ≠ 200 ∧
    ((workload_post okResp bareErrResp).db_manager_msgs = ["start worker"] ∧
     "close worker" ∉ (workload_post okResp bareErrResp).db_manager_msgs ∧
     (workload_post okResp bareErrResp).generator_msgs = ["start workload"] ∧
     (workload_post okResp bareErrResp).result = WorkloadResult.errorEnvelope 400
       (bareErrResp.error.getD ("Error during starting of the workload"))) :=
  ⟨rfl, by decide, partial_failure_no_rollback okResp bareErrResp rfl (by decide)⟩

/-- C5: in the fleet-wide variant every active database appears as a key
of the result and a database with an empty influx result is mapped to 0,
never dropped; in the detailed variant a tag pair absent from the influx
result keys yields no entry at all — the asymmetry between zero-filling
and omission. -/
theorem zero_fill_asymmetry (dbs : List String) (results : String → List Nat)
    (db : String) (hdb : db ∈ dbs) (hempty : results db = [])
    (rows : List (TagSet × Nat)) (p : TagSet)
    (hp : ∀ c : Nat, (p, c) ∉ rows) :
    (∀ d, d ∈ dbs → ∃ v, (d, v) ∈ throughputReshape dbs results) ∧
    (db, 0) ∈ throughputReshape dbs results ∧
    (∀ e, e ∈ detailedThroughputReshape rows →
      ¬ (e.benchmark = p.benchmark ∧ e.query_number = p.query_no)) := by
  refine ⟨?_, ?_, ?_⟩
  · intro d hd
    cases hres : results d with
    | nil => exact ⟨0, List.mem_map.mpr ⟨d, hd, by simp [hres]⟩⟩
    | cons c cs => exact ⟨c, List.mem_map.mpr ⟨d, hd, by simp [hres]⟩⟩
  · exact List.mem_map.mpr ⟨db, hdb, by simp [hempty]⟩
  · intro e he hcontra
    obtain ⟨hb, hq⟩ := hcontra
    obtain ⟨r, hr, hre⟩ := List.mem_map.mp he
    obtain ⟨⟨tb, tq⟩, c⟩ := r
    subst hre
    simp only [detailedThroughputReshape] at hb hq
    have hp2 : (⟨tb, tq⟩ : TagSet) = p := by
      cases p
      simp_all
    rw [hp2] at hr
    exact hp c hr

/-- C5 witness: the asymmetry theorem applied to one active database
whose influx result is empty and to an empty detailed result with an
arbitrary absent tag pair. -/
theorem zero_fill_asymmetry_witness :
    ("hyrise-1" ∈ ["hyrise-1"]) ∧
    ((fun _ : String => ([] : List Nat)) "hyrise-1" = []) ∧
    (∀ c : Nat, ((⟨"tpch_0.1", "1"⟩ : TagSet), c) ∉ ([] : List (TagSet × Nat))) ∧
    ((∀ d, d ∈ ["hyrise-1"] →
        ∃ v, (d, v) ∈ throughputReshape ["hyrise-1"] (fun _ => [])) ∧
     ("hyrise-1", 0) ∈ throughputReshape ["hyrise-1"] (fun _ => []) ∧
     (∀ e, e ∈ detailedThroughputReshape ([] : List (TagSet × Nat)) →
       ¬ (e.benchmark = (⟨"tpch_0.1", "1"⟩ : TagSet).benchmark ∧
          e.query_number = (⟨"tpch_0.1", "1"⟩ : TagSet).query_no))) :=
  ⟨by decide, rfl, fun c h => List.not_mem_nil _ h,
    zero_fill_asymmetry ["hyrise-1"] (fun _ => []) "hyrise-1" (by decide) rfl
      [] (⟨"tpch_0.1", "1"⟩ : TagSet) (fun c h => List.not_mem_nil _ h)⟩

/-- C8: a control-channel response is handed to the caller only after
passing the schema validation associated with the issued command (every
response send_message returns satisfies its schema predicate), and if
the fleet-membership lookup fails either validation, the whole
Throughput aggregation call returns the generic 500 error and issues
zero per-database time-series queries. -/
theorem response_validation_and_fail_fast
    (respValid bodyValid : ControlResponse → Bool) (resp : ControlResponse)
    (results : String → List Nat)
    (h : respValid resp = false ∨ bodyValid resp = false) :
    (∀ r2, send_message respValid resp = Except.ok r2 → respValid r2 = true) ∧
    throughput_endpoint respValid bodyValid resp results
      = (EndpointResult.serverError 500, []) := by
  constructor
  · intro r2 hr2
    by_cases hv : respValid resp = true
    · simp only [send_message, hv, if_true] at hr2
      cases hr2
      exact hv
    · simp only [Bool.not_eq_true] at hv
      simp [send_message, hv] at hr2
  · rcases h with hrv | hbv
    · simp [throughput_endpoint, active_databases, send_message, hrv]
    · by_cases hv : respValid resp = true
      · simp [throughput_endpoint, active_databases, send_message, hv, hbv]
      · simp only [Bool.not_eq_true] at hv
        simp [throughput_endpoint, active_databases, send_message, hv]

/-- C8 witness: the validation theorem applied to a membership response
rejected by the response schema. -/
theorem response_validation_and_fail_fast_witness :
    ((fun _ : ControlResponse => false) sampleControlResponse = false ∨
     (fun _ : ControlResponse => true) sampleControlResponse = false) ∧
    ((∀ r2, send_message (fun _ => false) sampleControlResponse = Except.ok r2 →
        (fun _ : ControlResponse => false) r2 = true) ∧
     throughput_endpoint (fun _ => false) (fun _ => true) sampleControlResponse
        (fun _ => []) = (EndpointResult.serverError 500, [])) :=
  ⟨Or.inl rfl,
    response_validation_and_fail_fast (fun _ => false) (fun _ => true)
      sampleControlResponse (fun _ => []) (Or.inl rfl)⟩

/-- C9: the dispatch loop sends exactly one response per received
command; a command name outside the recognized set yields the explicit
error response with the state unchanged, and the loop goes on to serve
the remaining commands identically; the reserved runtime_information
command yields the tagged not-implemented response instead of a crash. -/
theorem dispatch_total_and_unknown_safe (s : AgentState) (msgs : List Msg) (m : Msg)
    (h : m.contentType ∉ recognized_commands) :
    (runLoop s msgs).1.length = msgs.length ∧
    dispatch s m = ("[Error]", s) ∧
    (runLoop s (m :: msgs)).1 = "[Error]" :: (runLoop s msgs).1 ∧
    (dispatch s (simpleMsg ("runtime_information"))).1
      = "[NOT IMPLEMENTED YETWorkload]" := by
  have h1 : ¬ m.contentType = "query" := by
    intro e; exact h (by rw [e]; decide)
  have h2 : ¬ m.contentType = "workload" := by
    intro e; exact h (by rw [e]; decide)
  have h3 : ¬ m.contentType = "storage_data" := by
    intro e; exact h (by rw [e]; decide)
  have h4 : ¬ m.contentType = "throughput" := by
    intro e; exact h (by rw [e]; decide)
  have h5 : ¬ m.contentType = "runtime_information" := by
    intro e; exact h (by rw [e]; decide)
  have hd : dispatch s m = ("[Error]", s) := by
    simp [dispatch, h1, h2, h3, h4, h5]
  refine ⟨runLoop_length msgs s, hd, ?_, rfl⟩
  simp [runLoop, hd]

/-- C9 witness: the dispatch-safety theorem applied to the unrecognized
command name bogus in the initial state. -/
theorem dispatch_total_and_unknown_safe_witness :
    ((simpleMsg ("bogus")).contentType ∉ recognized_commands) ∧
    ((runLoop initialState []).1.length = ([] : List Msg).length ∧
     dispatch initialState (simpleMsg ("bogus")) = ("[Error]", initialState) ∧
     (runLoop initialState [simpleMsg ("bogus")]).1
        = "[Error]" :: (runLoop initialState []).1 ∧
     (dispatch initialState (simpleMsg ("runtime_information"))).1
        = "[NOT IMPLEMENTED YETWorkload]") :=
  ⟨by decide,
    dispatch_total_and_unknown_safe initialState [] (simpleMsg ("bogus")) (by decide)⟩
